import Mathlib

/-!
Verification of the SmartSocket firmware-update ingestion pipeline
(`src/main/components/wifi_ota/http_server.c`, `update_post_handler` and the
relay API handlers) against its natural-language specification.

Byte sequences are modelled as `List Nat` (each element a byte value).
C `strstr` operates on NUL-terminated strings, so it is modelled as a
substring search over the buffer's C-string view (the prefix before the
first zero byte).  The 4 KiB scratch buffer is reused across reads without
being cleared; its contents are modelled as the bytes of the latest chunk
followed by the residue of earlier chunks, with unwritten bytes reading as
zero (the model's determinization of the uninitialized `malloc` contents).
-/

namespace SmartSocket

/-- C-string view of a raw byte buffer: everything before the first NUL. -/
def cstr (l : List Nat) : List Nat := l.takeWhile (· ≠ 0)

/-- Boolean test: `p` starts the list `l` (byte-wise `memcmp` at offset 0). -/
def startsWith : List Nat → List Nat → Bool
  | [], _ => true
  | _ :: _, [] => false
  | a :: t, b :: u => a == b && startsWith t u

/-- First index at which `pat` occurs as a contiguous block of `hay`
(memmem-style search over explicit byte lists). -/
def findSub (pat : List Nat) : List Nat → Option Nat
  | [] => if pat = [] then some 0 else none
  | a :: t => if startsWith pat (a :: t) then some 0 else (findSub pat t).map (· + 1)

/-- `strstr(buf, pat)`: substring search over the C-string view of the buffer.
All search patterns used by the handler are NUL-free literals. -/
def strstrIdx (hay pat : List Nat) : Option Nat := findSub pat (cstr hay)

/-- `"--"` -/
def dashdash : List Nat := [45, 45]

/-- `"\r\n"` -/
def crlf : List Nat := [13, 10]

/-- `"\r\n\r\n"`, the multipart header/body separator. -/
def sep4 : List Nat := [13, 10, 13, 10]

/-- `"--" + boundary`, the part-boundary marker (`boundary_marker` /
`boundary_start` in the source). -/
def partMarker (B : List Nat) : List Nat := dashdash ++ B

/-- `"--" + boundary + "--"`, the final-boundary marker
(`final_boundary_start` / `boundary_final` in the source). -/
def finalMarker (B : List Nat) : List Nat := dashdash ++ B ++ dashdash

/-- `"\r\n--" + boundary + "--"` (`final_boundary` in the source). -/
def crlfFinal (B : List Nat) : List Nat := crlf ++ finalMarker B

/-- `"\r\n--" + boundary + "\r\n"` (`next_boundary` in the source). -/
def crlfPartCrlf (B : List Nat) : List Nat := crlf ++ partMarker B ++ crlf

/-- The `write_len = i - 2` adjustment of http_server.c lines 745-747 / 759-761:
when the marker found at offset `i` is preceded by CRLF, the CRLF is also
withheld from the write. -/
def trimCRLF (buf : List Nat) (i : Nat) : Nat :=
  if 2 ≤ i ∧ buf.getD (i - 2) 0 = 13 ∧ buf.getD (i - 1) 0 = 10 then i - 2 else i

/-- One position of the backwards tail scan (http_server.c lines 736-770):
at offset `i` the chunk matches `--B--` or `--B` entirely inside the
`recv_len` fresh bytes.  (The `buf[i] == '-' && buf[i+1] == '-'` pre-check is
implied by either marker match.)  Both marker kinds set
`found_final_boundary`. -/
def tailMatchAt (B buf : List Nat) (n i : Nat) : Bool :=
  decide ((i + (finalMarker B).length ≤ n ∧
            (buf.drop i).take (finalMarker B).length = finalMarker B) ∨
          (i + (partMarker B).length ≤ n ∧
            (buf.drop i).take (partMarker B).length = partMarker B))

/-- The backwards tail scan over the last 200 bytes of the chunk
(http_server.c lines 732-770): first offset `i` in
`[max 0 (recv_len-200), recv_len-1)` where a boundary marker starts and fits
inside the fresh bytes. -/
def scanTail (B buf : List Nat) (n : Nat) : Option Nat :=
  ((List.range (n - 1)).drop (n - 200)).find? (tailMatchAt B buf n)

/-- Result of one iteration of the streaming scan loop on a fresh chunk:
how many bytes from the start of the buffer are written to flash, and
whether the loop stops afterwards (`found_final_boundary` / final `break`). -/
structure StepOut where
  writeLen : Nat
  stop : Bool
deriving DecidableEq, Repr

/-- The per-chunk boundary scan for a non-empty boundary token
(http_server.c lines 635-662 and 716-771). -/
def chunkStepNE (B buf : List Nat) (n : Nat) : StepOut :=
  match strstrIdx buf (crlfFinal B) with
  | some k => ⟨k, true⟩
  | none =>
    if (finalMarker B).length ≤ n ∧ buf.take (finalMarker B).length = finalMarker B then
      ⟨0, true⟩
    else
      match strstrIdx buf (crlfPartCrlf B) with
      | some k => ⟨k, false⟩
      | none =>
        if 4 < n then
          match scanTail B buf n with
          | some i => ⟨trimCRLF buf i, true⟩
          | none => ⟨n, false⟩
        else ⟨n, false⟩

/-- The per-chunk boundary scan when no boundary token was extracted
(http_server.c lines 663-680). -/
def chunkStepEmpty (buf : List Nat) (n : Nat) : StepOut :=
  match strstrIdx buf (crlf ++ dashdash) with
  | some k =>
      ⟨k, decide (k + 2 < n ∧ buf.getD (k + 2) 0 = 45 ∧ buf.getD (k + 3) 0 = 45)⟩
  | none =>
    if 2 ≤ n ∧ buf.take 2 = dashdash ∧ 4 ≤ n ∧
        buf.getD (n - 2) 0 = 45 ∧ buf.getD (n - 1) 0 = 45 then
      ⟨0, true⟩
    else ⟨n, false⟩

/-- One iteration of the multipart streaming scan loop: classify the fresh
`n`-byte chunk at the start of buffer `buf` (http_server.c lines 630-792). -/
def chunkStep (B buf : List Nat) (n : Nat) : StepOut :=
  if B = [] then chunkStepEmpty buf n else chunkStepNE B buf n

/-- Offset of `binary_start` within the initial chunk (http_server.c lines
461-503): skip the leading `--boundary` line when present, then locate the
header/body separator `\r\n\r\n`. -/
def findBinaryStart (B chunk : List Nat) : Option Nat :=
  if B ≠ [] then
    if (partMarker B).length ≤ chunk.length ∧
        chunk.take (partMarker B).length = partMarker B then
      let off1 := (partMarker B).length
      let off2 := if (partMarker B).length + 2 ≤ chunk.length ∧
          (chunk.drop off1).take 2 = crlf then off1 + 2 else off1
      match strstrIdx (chunk.drop off2) sep4 with
      | some j => some (off2 + j + 4)
      | none => none
    else
      match strstrIdx chunk sep4 with
      | some j => some (j + 4)
      | none => none
  else
    match strstrIdx chunk sep4 with
    | some j => some (j + 4)
    | none => none

/-- Outcome of processing the initial chunk of a multipart body. -/
inductive InitOut where
  /-- first payload slice located; its bytes (possibly none) are written -/
  | ok (payload : List Nat)
  /-- `400 Invalid multipart data format` and `esp_ota_abort` -/
  | badFormat
  /-- `500 Invalid multipart data` and `esp_ota_abort` -/
  | invalidData
deriving DecidableEq, Repr

/-- The boundary-inclusion guard and first write (http_server.c lines
527-573): abort with 500 if the payload slice itself begins with
`--boundary`; the advisory magic-byte check (543-546) only logs. -/
def mpInitialFinish (B payload : List Nat) : InitOut :=
  if B ≠ [] ∧ (partMarker B).length ≤ payload.length ∧
      payload.take (partMarker B).length = partMarker B then
    .invalidData
  else
    .ok payload

/-- Framing Stripper: processing of the initial chunk in multipart mode
(http_server.c lines 461-583), including the defensive re-search when the
located payload still starts with a dash (lines 505-525). -/
def mpInitial (B chunk : List Nat) : InitOut :=
  match findBinaryStart B chunk with
  | none => .badFormat
  | some off =>
    if chunk.length - off = 0 then .badFormat
    else
      let payload := chunk.drop off
      if payload.getD 0 0 = 45 then
        match strstrIdx (payload.drop 1) sep4 with
        | some j => mpInitialFinish B (chunk.drop (off + 1 + j + 4))
        | none => .badFormat
      else mpInitialFinish B payload

/-- Modelled from the spec: `esp_ota_write` over the Flash Sink
(ESP-IDF code, not part of this repository).  "rejects (aborts session) if
`cursor + len(bytes) > capacity`; otherwise appends and advances cursor." -/
def flashWrite (flash : List Nat) (capacity : Nat) (bytes : List Nat) :
    Option (List Nat) :=
  if capacity < flash.length + bytes.length then none else some (flash ++ bytes)

/-- What one `httpd_req_recv` call delivers to the streaming loop. -/
inductive Event where
  /-- `recv_len > 0`: a fresh chunk of body bytes -/
  | data (c : List Nat)
  /-- `recv_len == HTTPD_SOCK_ERR_TIMEOUT` -/
  | timeout
  /-- `recv_len == 0`: connection closed -/
  | closed
  /-- any other `recv_len < 0`: transport failure -/
  | fail
deriving DecidableEq, Repr

/-- Mutable state of the streaming loop: the `received` payload counter, the
bytes written to the Flash Sink so far, and the scratch-buffer residue. -/
structure MpSt where
  received : Nat
  flash : List Nat
  buf : List Nat
deriving DecidableEq, Repr

/-- How the streaming loop ends. -/
inductive LoopOut where
  /-- loop exited normally (final boundary, length reached, or close) -/
  | done (s : MpSt)
  /-- `500 Receive failed`, `esp_ota_abort` -/
  | recvError (s : MpSt)
  /-- `500 OTA write failed`, `esp_ota_abort` -/
  | writeError (s : MpSt)
  /-- model artifact: the event list ran out while the loop would continue -/
  | ranOut (s : MpSt)
deriving DecidableEq, Repr

/-- `size_t` subtraction on ESP32 (32-bit, wrapping), for operands below
`2^32`. -/
def sub32 (a b : Nat) : Nat := (a + 2 ^ 32 - b % 2 ^ 32) % 2 ^ 32

/-- `boundary_overhead` (http_server.c line 611). -/
def boundaryOverhead (B : List Nat) : Nat := if 0 < B.length then B.length + 6 else 200

/-- The three branches of the connection-close policy (http_server.c lines
602-627).  Every branch `break`s out of the loop and proceeds to
finalization; the branches differ only in what they log. -/
inductive CloseBranch where
  /-- received is within the boundary-overhead tolerance of content-length -/
  | tolerantComplete
  /-- no content length known: close always means complete -/
  | noLengthComplete
  /-- possibly missing data, still treated as end of stream -/
  | missingData
deriving DecidableEq, Repr

/-- Which close branch a connection close takes (http_server.c lines
611-627), with the source's exact `size_t` arithmetic. -/
def connClosePolicy (B : List Nat) (contentLength received : Nat) : CloseBranch :=
  if 0 < contentLength ∧
      sub32 (sub32 contentLength (boundaryOverhead B)) 100 ≤ received then
    .tolerantComplete
  else if contentLength = 0 then .noLengthComplete
  else .missingData

/-- Loop guard `(content_length == 0 || received < content_length)`
(http_server.c lines 588 and 797). -/
def loopCond (contentLength received : Nat) : Bool :=
  decide (contentLength = 0 ∨ received < contentLength)

/-- The multipart streaming loop (http_server.c lines 585-793): one
`httpd_req_recv` per event.  Timeouts `continue`; close breaks via
`connClosePolicy`; a fresh chunk is scanned by `chunkStep` over the reused
scratch buffer and the bytes before the match are written to flash. -/
def mpLoop (B : List Nat) (capacity contentLength : Nat) :
    List Event → MpSt → LoopOut
  | [], s => if loopCond contentLength s.received then .ranOut s else .done s
  | e :: rest, s =>
    if loopCond contentLength s.received = false then .done s
    else
      match e with
      | .fail => .recvError s
      | .timeout => mpLoop B capacity contentLength rest s
      | .closed =>
        match connClosePolicy B contentLength s.received with
        | .tolerantComplete => .done s
        | .noLengthComplete => .done s
        | .missingData => .done s
      | .data c =>
        let buf := c ++ s.buf.drop c.length
        let r := chunkStep B buf c.length
        if 0 < r.writeLen then
          match flashWrite s.flash capacity (buf.take r.writeLen) with
          | none => .writeError s
          | some fl =>
            let s' : MpSt := ⟨s.received + r.writeLen, fl, buf⟩
            if r.stop then .done s' else mpLoop B capacity contentLength rest s'
        else
          let s' : MpSt := ⟨s.received, s.flash, buf⟩
          if r.stop then .done s' else mpLoop B capacity contentLength rest s'

/-- The raw (non-multipart) receive loop (http_server.c lines 794-829):
every fresh chunk is written wholesale. -/
def rawLoop (capacity contentLength : Nat) : List Event → MpSt → LoopOut
  | [], s => if loopCond contentLength s.received then .ranOut s else .done s
  | e :: rest, s =>
    if loopCond contentLength s.received = false then .done s
    else
      match e with
      | .fail => .recvError s
      | .timeout => rawLoop capacity contentLength rest s
      | .closed => .done s
      | .data c =>
        match flashWrite s.flash capacity c with
        | none => .writeError s
        | some fl =>
          rawLoop capacity contentLength rest
            ⟨s.received + c.length, fl, c ++ s.buf.drop c.length⟩

/-- Result of `esp_ota_end` (the storage-layer integrity check delegated to
ESP-IDF): success, `ESP_ERR_OTA_VALIDATE_FAILED`, or any other error. -/
inductive OtaEndR where
  | ok
  | validateFailed
  | otherErr
deriving DecidableEq, Repr

/-- Observable outcome of the finalization phase. -/
structure Outcome where
  /-- HTTP status codes passed to `httpd_resp_send`, in order -/
  responses : List Nat
  /-- `esp_ota_abort` invoked during finalization -/
  abortCalled : Bool
  /-- the OTA handle was released (via abort or via `esp_ota_end`,
  which frees the handle whether or not it validates) -/
  regionReleased : Bool
  /-- `esp_ota_set_boot_partition` was invoked and succeeded -/
  bootSet : Bool
  /-- `esp_restart` reached -/
  rebooted : Bool
  /-- the handler's return value is `ESP_OK` -/
  retOk : Bool
deriving DecidableEq, Repr

/-- Finalization (http_server.c lines 836-930): magic-byte check via
`esp_partition_read` of the region's first byte (erased flash reads `0xFF`),
then `esp_ota_end`, then — only on success — the 200 response is sent,
followed by the boot-partition re-lookup and `esp_ota_set_boot_partition`. -/
def finalizePhase (flash : List Nat) (otaEnd : OtaEndR)
    (bootPartFound setBootOk : Bool) : Outcome :=
  if flash.headD 255 ≠ 233 then
    ⟨[400], true, true, false, false, false⟩
  else
    match otaEnd with
    | .validateFailed => ⟨[400], false, true, false, false, false⟩
    | .otherErr => ⟨[500], false, true, false, false, false⟩
    | .ok =>
      if bootPartFound = false then ⟨[200, 500], false, true, false, false, false⟩
      else if setBootOk = false then ⟨[200], false, true, false, false, false⟩
      else ⟨[200], false, true, true, true, true⟩

/-- Outcome of a whole `POST /update` session. -/
inductive RunOut where
  /-- aborted mid-stream: status sent, `esp_ota_abort` called, finalization
  (and hence the boot-target switch) never reached -/
  | aborted (status : Nat) (flash : List Nat)
  /-- the stream ended and finalization ran -/
  | finished (o : Outcome) (flash : List Nat)
  /-- model artifact: ran out of events -/
  | stuck
deriving DecidableEq, Repr

/-- The multipart path of `update_post_handler` end to end, for a boundary
`B` already extracted from the Content-Type header or sniffed from the data
(http_server.c lines 347-448, modelled as an input).  `chunks` are the byte
windows successive `httpd_req_recv` calls return; the connection closes
after the last one. -/
def runMultipart (B : List Nat) (capacity contentLength : Nat)
    (chunks : List (List Nat)) (otaEnd : OtaEndR) (setBootOk : Bool) : RunOut :=
  let c0 := chunks.headD []
  match mpInitial B c0 with
  | .badFormat => .aborted 400 []
  | .invalidData => .aborted 500 []
  | .ok payload =>
    match (if 0 < payload.length then flashWrite [] capacity payload
           else some []) with
    | none => .aborted 500 []
    | some fl0 =>
      let s0 : MpSt := ⟨payload.length, fl0, c0⟩
      match mpLoop B capacity contentLength
          (chunks.tail.map Event.data ++ [.closed]) s0 with
      | .done s => .finished (finalizePhase s.flash otaEnd true setBootOk) s.flash
      | .recvError s => .aborted 500 s.flash
      | .writeError s => .aborted 500 s.flash
      | .ranOut _ => .stuck

/-- The raw path of `update_post_handler` end to end.  The initial chunk
read at http_server.c line 359 is consumed for multipart sniffing only and
its bytes are never written in the raw branch (lines 794-829). -/
def runRaw (capacity contentLength : Nat) (chunks : List (List Nat))
    (otaEnd : OtaEndR) (setBootOk : Bool) : RunOut :=
  let c0 := chunks.headD []
  let s0 : MpSt := ⟨0, [], c0⟩
  match rawLoop capacity contentLength
      (chunks.tail.map Event.data ++ [.closed]) s0 with
  | .done s => .finished (finalizePhase s.flash otaEnd true setBootOk) s.flash
  | .recvError s => .aborted 500 s.flash
  | .writeError s => .aborted 500 s.flash
  | .ranOut _ => .stuck

/-- Multipart wrapping of a firmware image `F` with boundary `B`, in the
spec's Scenario-B shape: `--B\r\n` + a sub-header line + `\r\n\r\n` + `F` +
`\r\n--B--\r\n`.  The fixed sub-header line is `A:B`. -/
def wrapMultipart (F B : List Nat) : List Nat :=
  dashdash ++ B ++ crlf ++ [65, 58, 66] ++ sep4 ++ F ++ crlf ++ finalMarker B ++ crlf

/-- Partition of a byte sequence into 1-byte windows. -/
def oneByteWindows (l : List Nat) : List (List Nat) := l.map (fun b => [b])

/-- Relay-id validation shared by `relay_get_handler` and
`relay_post_handler` (http_server.c lines 194 and 233): rejected iff
`relay_id < 1 || relay_id > 6`. -/
def relayIdValid (id : Int) : Bool := decide (¬(id < 1 ∨ 6 < id))

/-- The number of relay UI objects the firmware configures:
`lvgl_demo_ui.c` creates exactly `relay_1_ui_obj` … `relay_5_ui_obj`. -/
def configuredRelayCount : Nat := 5

/-- Modelled from the spec: `example_lvgl_get_relay_ui` is only declared
`extern` in src/ (http_server.c line 25); its definition is outside the
provided sources.  `lvgl_demo_ui.c` configures exactly five relay UI
objects, so the lookup yields an object precisely for indices 1..5. -/
def getRelayUi (id : Int) : Option Unit :=
  if 1 ≤ id ∧ id ≤ (configuredRelayCount : Int) then some () else none

/-- Response of `relay_get_handler` (http_server.c lines 180-217). -/
inductive RelayResp where
  /-- `400 Invalid relay ID`, sent before any relay lookup -/
  | badId
  /-- `503 Relay not initialized` after the lookup returned NULL -/
  | unavailable
  /-- `200` with the relay's current state -/
  | okState (state : Bool)
deriving DecidableEq, Repr

/-- `relay_get_handler` as a function of the id parsed from the URI and the
relay states. -/
def relayGetHandler (id : Int) (states : Int → Bool) : RelayResp :=
  if relayIdValid id = false then .badId
  else
    match getRelayUi id with
    | none => .unavailable
    | some _ => .okState (states id)

/-- `"\"state\":true"` -/
def tokDQTrue : List Nat := [34, 115, 116, 97, 116, 101, 34, 58, 116, 114, 117, 101]

/-- `"'state':true"` -/
def tokSQTrue : List Nat := [39, 115, 116, 97, 116, 101, 39, 58, 116, 114, 117, 101]

/-- `"\"state\":false"` -/
def tokDQFalse : List Nat := [34, 115, 116, 97, 116, 101, 34, 58, 102, 97, 108, 115, 101]

/-- `"'state':false"` -/
def tokSQFalse : List Nat := [39, 115, 116, 97, 116, 101, 39, 58, 102, 97, 108, 115, 101]

/-- The body bytes `relay_post_handler` actually inspects: `httpd_req_recv`
fills at most 127 bytes of a zeroed 128-byte array, and `strstr` reads its
C-string view. -/
def bodyView (body : List Nat) : List Nat := cstr (body.take 127)

/-- `strstr(content, tok) != NULL` for the relay POST body. -/
def hasTok (body tok : List Nat) : Bool := (findSub tok (bodyView body)).isSome

/-- The state chosen by `relay_post_handler`'s body parse (http_server.c
lines 259-268): explicit `state:true`/`state:false` tokens win, anything
else toggles the current state. -/
def relayPostNewState (body : List Nat) (current : Bool) : Bool :=
  if hasTok body tokDQTrue ∨ hasTok body tokSQTrue then true
  else if hasTok body tokDQFalse ∨ hasTok body tokSQFalse then false
  else !current

/-- Response of `relay_post_handler` (http_server.c lines 222-279). -/
inductive PostResp where
  /-- `400 Invalid relay ID` -/
  | badId
  /-- `503 Relay not initialized` -/
  | unavailable
  /-- `400 No data received` -/
  | noData
  /-- `200 success` with the state that was set -/
  | okSet (newState : Bool)
deriving DecidableEq, Repr

/-- `relay_post_handler` as a function of the parsed id, the received body
bytes and the relay's current state. -/
def relayPostHandler (id : Int) (body : List Nat) (current : Bool) : PostResp :=
  if relayIdValid id = false then .badId
  else
    match getRelayUi id with
    | none => .unavailable
    | some _ =>
      if body.length = 0 then .noData
      else .okSet (relayPostNewState body current)

/-- The session state a loop result carries. -/
def LoopOut.state : LoopOut → MpSt
  | .done s => s
  | .recvError s => s
  | .writeError s => s
  | .ranOut s => s

/-! ## Helper lemmas -/

theorem startsWith_iff (pat : List Nat) :
    ∀ l : List Nat, startsWith pat l = true ↔ pat <+: l := by
  induction pat with
  | nil =>
    intro l
    simp [startsWith]
  | cons a t ih =>
    intro l
    cases l with
    | nil => simp [startsWith]
    | cons b u =>
      rw [startsWith, Bool.and_eq_true, beq_iff_eq, ih u]
      constructor
      · rintro ⟨rfl, r, hr⟩
        exact ⟨r, by rw [List.cons_append, hr]⟩
      · rintro ⟨r, hr⟩
        rw [List.cons_append] at hr
        exact ⟨(List.cons.injEq _ _ _ _).mp hr |>.1,
          r, (List.cons.injEq _ _ _ _).mp hr |>.2⟩

theorem findSub_sound (pat : List Nat) :
    ∀ (hay : List Nat) (i : Nat), findSub pat hay = some i → pat <:+: hay := by
  intro hay
  induction hay with
  | nil =>
    intro i h
    by_cases hp : pat = []
    · simp [hp]
    · simp [findSub, hp] at h
  | cons a t ih =>
    intro i h
    rw [findSub] at h
    by_cases hp : startsWith pat (a :: t) = true
    · obtain ⟨r, hr⟩ := (startsWith_iff pat (a :: t)).mp hp
      exact ⟨[], r, by rw [List.nil_append, hr]⟩
    · rw [if_neg hp] at h
      cases hf : findSub pat t with
      | none => rw [hf] at h; simp at h
      | some j =>
        obtain ⟨u, v, huv⟩ := ih j hf
        exact ⟨a :: u, v, congrArg (List.cons a) huv⟩

theorem findSub_complete (pat : List Nat) :
    ∀ (hay : List Nat), pat <:+: hay → (findSub pat hay).isSome = true := by
  intro hay
  induction hay with
  | nil =>
    intro h
    have : pat = [] := by simpa using h
    simp [findSub, this]
  | cons a t ih =>
    intro h
    rw [findSub]
    by_cases hp : startsWith pat (a :: t) = true
    · simp [hp]
    · rw [if_neg hp, Option.isSome_map']
      apply ih
      obtain ⟨s, u, hsu⟩ := h
      match s, hsu with
      | [], hsu =>
        exfalso
        exact hp ((startsWith_iff pat (a :: t)).mpr ⟨u, hsu⟩)
      | b :: s, hsu =>
        exact ⟨s, u, by simpa using congrArg List.tail hsu⟩

theorem bodyView_within (body : List Nat) : bodyView body <:+: body := by
  have h1 : bodyView body <+: body.take 127 := by
    unfold bodyView cstr
    exact ⟨_, List.takeWhile_append_dropWhile _ _⟩
  have h2 : body.take 127 <+: body := ⟨body.drop 127, List.take_append_drop 127 body⟩
  obtain ⟨r, hr⟩ := h1.trans h2
  exact ⟨[], r, by rw [List.nil_append, hr]⟩

theorem hasTok_eq_false_of_absent (body tok : List Nat) (h : ¬ tok <:+: body) :
    hasTok body tok = false := by
  by_contra hcon
  apply h
  rw [Bool.not_eq_false, hasTok, Option.isSome_iff_exists] at hcon
  obtain ⟨i, hi⟩ := hcon
  exact (findSub_sound tok (bodyView body) i hi).trans (bodyView_within body)

theorem rawLoop_cond_false (cap cl : Nat) (evs : List Event) (s : MpSt)
    (h : loopCond cl s.received = false) : rawLoop cap cl evs s = .done s := by
  cases evs with
  | nil => simp [rawLoop, h]
  | cons e rest => simp [rawLoop, h]

theorem rawLoop_timeout_skip (cap cl : Nat) :
    ∀ (n : Nat) (evs : List Event) (s : MpSt),
      rawLoop cap cl (List.replicate n .timeout ++ evs) s = rawLoop cap cl evs s := by
  intro n
  induction n with
  | zero => intro evs s; rfl
  | succ m ih =>
    intro evs s
    rw [List.replicate_succ, List.cons_append]
    cases hc : loopCond cl s.received with
    | false =>
      rw [rawLoop_cond_false cap cl _ s hc, rawLoop_cond_false cap cl evs s hc]
    | true => rw [rawLoop, if_neg (by simp [hc]), ih]

theorem mpLoop_cond_false (B : List Nat) (cap cl : Nat) (evs : List Event) (s : MpSt)
    (h : loopCond cl s.received = false) : mpLoop B cap cl evs s = .done s := by
  cases evs with
  | nil => simp [mpLoop, h]
  | cons e rest => simp [mpLoop, h]

theorem mpLoop_timeout_skip (B : List Nat) (cap cl : Nat) :
    ∀ (n : Nat) (evs : List Event) (s : MpSt),
      mpLoop B cap cl (List.replicate n .timeout ++ evs) s = mpLoop B cap cl evs s := by
  intro n
  induction n with
  | zero => intro evs s; rfl
  | succ m ih =>
    intro evs s
    rw [List.replicate_succ, List.cons_append]
    cases hc : loopCond cl s.received with
    | false =>
      rw [mpLoop_cond_false B cap cl _ s hc, mpLoop_cond_false B cap cl evs s hc]
    | true => rw [mpLoop, if_neg (by simp [hc]), ih]

theorem rawLoop_received_mono (cap cl : Nat) :
    ∀ (evs : List Event) (s : MpSt),
      s.received ≤ ((rawLoop cap cl evs s).state).received := by
  intro evs
  induction evs with
  | nil =>
    intro s
    simp only [rawLoop]
    split <;> simp [LoopOut.state]
  | cons e rest ih =>
    intro s
    simp only [rawLoop]
    split
    · simp [LoopOut.state]
    · cases e with
      | fail => simp [LoopOut.state]
      | timeout => exact ih s
      | closed => simp [LoopOut.state]
      | data c =>
        cases hw : flashWrite s.flash cap c with
        | none => simp [hw, LoopOut.state]
        | some fl =>
          simp only [hw]
          exact le_trans (Nat.le_add_right _ c.length)
            (ih ⟨s.received + c.length, fl, c ++ s.buf.drop c.length⟩)

theorem mpLoop_received_mono (B : List Nat) (cap cl : Nat) :
    ∀ (evs : List Event) (s : MpSt),
      s.received ≤ ((mpLoop B cap cl evs s).state).received := by
  intro evs
  induction evs with
  | nil =>
    intro s
    simp only [mpLoop]
    split <;> simp [LoopOut.state]
  | cons e rest ih =>
    intro s
    simp only [mpLoop]
    split
    · simp [LoopOut.state]
    · cases e with
      | fail => simp [LoopOut.state]
      | timeout => exact ih s
      | closed =>
        cases connClosePolicy B cl s.received <;> simp [LoopOut.state]
      | data c =>
        dsimp only
        by_cases hwl :
            0 < (chunkStep B (c ++ s.buf.drop c.length) c.length).writeLen
        · rw [if_pos hwl]
          cases hw : flashWrite s.flash cap
              ((c ++ s.buf.drop c.length).take
                (chunkStep B (c ++ s.buf.drop c.length) c.length).writeLen) with
          | none => simp [hw, LoopOut.state]
          | some fl =>
            simp only [hw]
            split
            · simp [LoopOut.state]
            · exact le_trans
                (Nat.le_add_right _
                  (chunkStep B (c ++ s.buf.drop c.length) c.length).writeLen)
                (ih ⟨s.received +
                    (chunkStep B (c ++ s.buf.drop c.length) c.length).writeLen,
                  fl, c ++ s.buf.drop c.length⟩)
        · rw [if_neg hwl]
          split
          · simp [LoopOut.state]
          · exact ih ⟨s.received, s.flash, c ++ s.buf.drop c.length⟩

/-! ## Claim theorems -/

/-- **C1.** The claimed round-trip property — for every partition of
`wrap_multipart(F, boundary)` into arbitrary windows, down to 1-byte
windows, the handler writes exactly `F` — fails on the code: with 1-byte
receive windows the initial chunk is the single byte `-`, no header/body
separator is found in it, and the handler aborts with `400 Invalid
multipart data format` having written nothing (http_server.c lines
574-583).  Here `F = E9 01 02`, boundary `X`. -/
theorem c1_round_trip_fails_on_one_byte_windows :
    runMultipart [88] 1000000 (wrapMultipart [233, 1, 2] [88]).length
      (oneByteWindows (wrapMultipart [233, 1, 2] [88])) .ok true =
      .aborted 400 [] := by
  rfl

/-- **C2.** The claimed no-framing-leakage invariant fails on the code:
when the whole multipart body arrives in the first receive window, the
initial-chunk write (http_server.c lines 560-573) writes everything after
the header/body separator — including the trailing `\r\n--X--\r\n` final
boundary — to the flash sink, so the boundary token `--X` (bytes
`45 45 88`) appears contiguously in the flashed bytes. -/
theorem c2_boundary_marker_written_to_flash :
    runMultipart [88] 1000000 (wrapMultipart [233, 1, 2] [88]).length
      [wrapMultipart [233, 1, 2] [88]] .ok true =
      .finished ⟨[200], false, true, true, true, true⟩
        [233, 1, 2, 13, 10, 45, 45, 88, 45, 45, 13, 10] ∧
    (findSub (partMarker [88])
        [233, 1, 2, 13, 10, 45, 45, 88, 45, 45, 13, 10]).isSome = true :=
  ⟨by rfl, by rfl⟩

/-- **C3 (counterexample).** The claim says that on a chunk with no
boundary-like match the handler withholds a suffix of length
`min(len(carry+C), len(B)+4)` as carry.  On the code, a 10-byte chunk with
no boundary-like content and boundary `X` is written in full
(`write_len = recv_len`, http_server.c line 720): nothing is withheld,
contradicting the claimed emitted length `10 - min 10 (1+4) = 5`. -/
theorem c3_no_holdback_counterexample :
    chunkStep [88] [1, 2, 3, 4, 5, 6, 7, 8, 9, 10] 10 = ⟨10, false⟩ ∧
    ¬ ((10 : Nat) = 10 - min 10 (List.length ([88] : List Nat) + 4)) :=
  ⟨by rfl, by decide⟩

/-- **C3 (amended).** When a chunk contains no boundary-like match — no
`\r\n--B--`, no `--B--` chunk prefix, no `\r\n--B\r\n`, and no marker found
by the 200-byte tail scan — the handler emits the entire chunk immediately
and withholds nothing; there is no carry between chunks. -/
theorem c3_no_match_emits_entire_chunk (B buf : List Nat) (n : Nat)
    (hB : B ≠ [])
    (h1 : strstrIdx buf (crlfFinal B) = none)
    (h2 : ¬ ((finalMarker B).length ≤ n ∧
          buf.take (finalMarker B).length = finalMarker B))
    (h3 : strstrIdx buf (crlfPartCrlf B) = none)
    (h4 : scanTail B buf n = none) :
    chunkStep B buf n = ⟨n, false⟩ := by
  simp only [chunkStep, if_neg hB, chunkStepNE, h1, h3, h4, if_neg h2]
  split <;> rfl

/-- Witness for `c3_no_match_emits_entire_chunk` at a concrete chunk. -/
theorem c3_no_match_emits_entire_chunk_witness :
    chunkStep [88] [7, 7, 7, 7, 7, 7] 6 = ⟨6, false⟩ :=
  c3_no_match_emits_entire_chunk [88] [7, 7, 7, 7, 7, 7] 6
    (by decide) (by rfl) (by decide) (by rfl) (by rfl)

/-- **C4 (counterexample).** The claim says a failed boot-target switch is
surfaced to the HTTP caller.  On the code, the `200 OK` success response is
sent before `esp_ota_set_boot_partition` is attempted (http_server.c lines
882-885), so when the switch fails the only response the caller ever
receives is the 200 success message; no error reaches the client (the
handler merely returns the error internally, lines 913-918). -/
theorem c4_commit_failure_invisible_to_client :
    finalizePhase [233, 1, 2] .ok true false =
      ⟨[200], false, true, false, false, false⟩ := by
  rfl

/-- **C4 (amended).** If the boot-target switch fails after validation has
succeeded, the already-validated image is not discarded (`esp_ota_abort` is
not called and the region is simply left without the boot-target switch),
but the failure is not surfaced to the HTTP caller: the 200 success
response was already sent before the switch was attempted, and the error is
only returned internally. -/
theorem c4_commit_failure_keeps_image (flash : List Nat)
    (hm : flash.headD 255 = 233) :
    finalizePhase flash .ok true false =
      ⟨[200], false, true, false, false, false⟩ := by
  unfold finalizePhase
  rw [if_neg (fun h => h hm)]
  rfl

/-- Witness for `c4_commit_failure_keeps_image`. -/
theorem c4_commit_failure_keeps_image_witness :
    finalizePhase [233] .ok true false =
      ⟨[200], false, true, false, false, false⟩ :=
  c4_commit_failure_keeps_image [233] (by rfl)

/-- **C5 (counterexample).** The claim says consecutive chunk-read timeouts
are retried only a bounded number of times before the session aborts.  On
the code a timeout simply `continue`s (http_server.c lines 591-593 and
800-802) with no retry counter: there is no number `k` of consecutive
timeouts after which the receive loop stops completing normally. -/
theorem c5_no_bounded_timeout_giveup :
    ¬ ∃ k : Nat,
        rawLoop 4096 0 (List.replicate k .timeout ++ [.closed]) ⟨0, [], []⟩ ≠
          .done ⟨0, [], []⟩ := by
  rintro ⟨k, hk⟩
  exact hk (by rw [rawLoop_timeout_skip]; rfl)

/-- **C5 (amended).** A chunk-read timeout is not fatal on the first
occurrence — and not on any later occurrence either: both receive loops
skip any number of consecutive timeouts transparently and never abort
because of them (the retries are unbounded, not bounded). -/
theorem c5_timeouts_retried_indefinitely (B : List Nat) (cap cl n : Nat)
    (evs : List Event) (s : MpSt) :
    rawLoop cap cl (List.replicate n .timeout ++ evs) s = rawLoop cap cl evs s ∧
    mpLoop B cap cl (List.replicate n .timeout ++ evs) s = mpLoop B cap cl evs s :=
  ⟨rawLoop_timeout_skip cap cl n evs s, mpLoop_timeout_skip B cap cl n evs s⟩

/-- **C6.** If the first byte of the written region is not the firmware
magic `0xE9`, finalization aborts the region (`esp_ota_abort`), answers
`400`, and never reaches the boot-target switch; if the storage-layer
integrity check (`esp_ota_end`) reports a validation failure, finalization
answers `400`, the handle is released, and the boot-target switch is never
reached either. -/
theorem c6_validation_failure_aborts_region (flash : List Nat)
    (otaEnd : OtaEndR) (bpf sbo : Bool) :
    (flash.headD 255 ≠ 233 →
      finalizePhase flash otaEnd bpf sbo =
        ⟨[400], true, true, false, false, false⟩) ∧
    (flash.headD 255 = 233 →
      finalizePhase flash .validateFailed bpf sbo =
        ⟨[400], false, true, false, false, false⟩) := by
  constructor
  · intro h
    unfold finalizePhase
    rw [if_pos h]
  · intro h
    unfold finalizePhase
    rw [if_neg (fun hc => hc h)]

/-- Witness for `c6_validation_failure_aborts_region`. -/
theorem c6_validation_failure_aborts_region_witness :
    finalizePhase [0, 1] .ok true true = ⟨[400], true, true, false, false, false⟩ ∧
    finalizePhase [233] .validateFailed true true =
      ⟨[400], false, true, false, false, false⟩ :=
  ⟨(c6_validation_failure_aborts_region [0, 1] .ok true true).1 (by decide),
   (c6_validation_failure_aborts_region [233] .ok true true).2 (by rfl)⟩

/-- **C7.** If the connection closes before a terminator is found and the
content length is known with `received` inside the code's
boundary-overhead tolerance, the loop takes the tolerant-complete branch
and exits normally into finalization; if the content length is unknown
(zero), connection close always completes the stream. -/
theorem c7_connection_close_completes (B : List Nat) (cap cl : Nat)
    (evs : List Event) (s : MpSt) :
    (0 < cl → sub32 (sub32 cl (boundaryOverhead B)) 100 ≤ s.received →
      connClosePolicy B cl s.received = .tolerantComplete ∧
      mpLoop B cap cl (.closed :: evs) s = .done s) ∧
    (cl = 0 →
      connClosePolicy B cl s.received = .noLengthComplete ∧
      mpLoop B cap cl (.closed :: evs) s = .done s) := by
  have hdone : mpLoop B cap cl (.closed :: evs) s = .done s := by
    rw [mpLoop]
    split
    · rfl
    · cases hb : connClosePolicy B cl s.received <;> simp [hb]
  constructor
  · intro h1 h2
    refine ⟨?_, hdone⟩
    unfold connClosePolicy
    rw [if_pos ⟨h1, h2⟩]
  · intro h0
    refine ⟨?_, hdone⟩
    unfold connClosePolicy
    rw [if_neg (by simp [h0]), if_pos h0]

/-- Witness for `c7_connection_close_completes`. -/
theorem c7_connection_close_completes_witness :
    (connClosePolicy [88] 200 98 = .tolerantComplete ∧
      mpLoop [88] 4096 200 [.closed] ⟨98, [], []⟩ = .done ⟨98, [], []⟩) ∧
    (connClosePolicy [] 0 5 = .noLengthComplete ∧
      mpLoop [] 4096 0 [.closed] ⟨5, [], []⟩ = .done ⟨5, [], []⟩) :=
  ⟨(c7_connection_close_completes [88] 4096 200 [] ⟨98, [], []⟩).1
      (by decide) (by decide),
   (c7_connection_close_completes [] 4096 0 [] ⟨5, [], []⟩).2 rfl⟩

/-- **C8.** Flash-write accounting in both receive loops (the multipart
loop's writes at http_server.c lines 773-787 and the raw loop's at
816-828): an accepted write advances `received` by exactly the number of
bytes written and appends exactly those bytes to the flash sink (so the
counter never decreases — monotonicity is stated for both loops), a write
that would exceed the region capacity is rejected by the storage layer, a
rejected write ends either loop in `writeError`, and a `writeError` exit —
from the streaming loop or from the initial-chunk write of the multipart
path — makes the whole session abort with `500` before finalization, so
the boot-target switch is never attempted and the region stays
non-boot-eligible. -/
theorem c8_write_accounting (B : List Nat) (cap cl : Nat) (c bytes : List Nat)
    (rest : List Event) (s s2 : MpSt) (fl fl2 fl0 : List Nat)
    (buf pl : List Nat) (r : StepOut) (chunks : List (List Nat))
    (otaEnd : OtaEndR) (sbo : Bool) :
    (loopCond cl s.received = true → flashWrite s.flash cap c = some fl →
      rawLoop cap cl (.data c :: rest) s =
        rawLoop cap cl rest ⟨s.received + c.length, fl, c ++ s.buf.drop c.length⟩) ∧
    (cap < s.flash.length + c.length → flashWrite s.flash cap c = none) ∧
    (loopCond cl s.received = true → flashWrite s.flash cap c = none →
      rawLoop cap cl (.data c :: rest) s = .writeError s) ∧
    (∀ evs : List Event, s.received ≤ ((rawLoop cap cl evs s).state).received) ∧
    (rawLoop cap cl (chunks.tail.map Event.data ++ [.closed])
        ⟨0, [], chunks.headD []⟩ = .writeError s2 →
      runRaw cap cl chunks otaEnd sbo = .aborted 500 s2.flash) ∧
    (flashWrite s.flash cap bytes = some fl2 →
      fl2 = s.flash ++ bytes ∧ fl2.length = s.flash.length + bytes.length) ∧
    (buf = c ++ s.buf.drop c.length → r = chunkStep B buf c.length →
      loopCond cl s.received = true → 0 < r.writeLen →
      flashWrite s.flash cap (buf.take r.writeLen) = some fl2 →
      mpLoop B cap cl (.data c :: rest) s =
        if r.stop then .done ⟨s.received + r.writeLen, fl2, buf⟩
        else mpLoop B cap cl rest ⟨s.received + r.writeLen, fl2, buf⟩) ∧
    (buf = c ++ s.buf.drop c.length → r = chunkStep B buf c.length →
      loopCond cl s.received = true → 0 < r.writeLen →
      flashWrite s.flash cap (buf.take r.writeLen) = none →
      mpLoop B cap cl (.data c :: rest) s = .writeError s) ∧
    (∀ evs : List Event, s.received ≤ ((mpLoop B cap cl evs s).state).received) ∧
    (mpInitial B (chunks.headD []) = .ok pl →
      (if 0 < pl.length then flashWrite [] cap pl else some []) = some fl0 →
      mpLoop B cap cl (chunks.tail.map Event.data ++ [.closed])
        ⟨pl.length, fl0, chunks.headD []⟩ = .writeError s2 →
      runMultipart B cap cl chunks otaEnd sbo = .aborted 500 s2.flash) ∧
    (mpInitial B (chunks.headD []) = .ok pl → 0 < pl.length →
      flashWrite [] cap pl = none →
      runMultipart B cap cl chunks otaEnd sbo = .aborted 500 []) := by
  refine ⟨?_, ?_, ?_, ?_, ?_, ?_, ?_, ?_, ?_, ?_, ?_⟩
  · intro hc hw
    rw [rawLoop, if_neg (by simp [hc])]
    simp only [hw]
  · intro h
    unfold flashWrite
    rw [if_pos h]
  · intro hc hw
    rw [rawLoop, if_neg (by simp [hc])]
    simp only [hw]
  · intro evs
    exact rawLoop_received_mono cap cl evs s
  · intro h
    simp only [runRaw]
    rw [h]
  · intro h
    have hcap : ¬ cap < s.flash.length + bytes.length := by
      intro hlt
      rw [flashWrite, if_pos hlt] at h
      exact Option.noConfusion h
    rw [flashWrite, if_neg hcap] at h
    have heq : s.flash ++ bytes = fl2 := Option.some.inj h
    refine ⟨heq.symm, ?_⟩
    rw [← heq, List.length_append]
  · intro hbuf hr hc hwl hw
    subst hbuf
    subst hr
    rw [mpLoop, if_neg (by simp [hc])]
    dsimp only
    rw [if_pos hwl]
    simp only [hw]
  · intro hbuf hr hc hwl hw
    subst hbuf
    subst hr
    rw [mpLoop, if_neg (by simp [hc])]
    dsimp only
    rw [if_pos hwl]
    simp only [hw]
  · intro evs
    exact mpLoop_received_mono B cap cl evs s
  · intro h1 h0 h2
    simp only [runMultipart, h1, h0, h2]
  · intro h1 h2 h3
    simp only [runMultipart, h1, h2, if_true, h3]

/-- Witness for `c8_write_accounting`: concrete accepted and rejected
writes on both loops, and aborted sessions on both paths. -/
theorem c8_write_accounting_witness :
    rawLoop 2 0 [.data [1, 2, 3]] ⟨0, [], []⟩ = .writeError ⟨0, [], []⟩ ∧
    flashWrite [] 2 [1, 2, 3] = none ∧
    rawLoop 9 0 [.data [1, 2]] ⟨0, [], []⟩ = rawLoop 9 0 [] ⟨2, [1, 2], [1, 2]⟩ ∧
    runRaw 2 0 [[], [1, 2, 3]] .ok true = .aborted 500 [] ∧
    ([5, 6, 7] : List Nat) = [5] ++ [6, 7] ∧
    mpLoop [88] 10 0 [.data [1, 2, 3, 4, 5, 6]] ⟨0, [], []⟩ =
      mpLoop [88] 10 0 [] ⟨6, [1, 2, 3, 4, 5, 6], [1, 2, 3, 4, 5, 6]⟩ ∧
    mpLoop [88] 3 0 [.data [1, 2, 3, 4, 5, 6]] ⟨0, [], []⟩ =
      .writeError ⟨0, [], []⟩ ∧
    runMultipart [88] 2 0
      [[45, 45, 88, 13, 10, 65, 58, 66, 13, 10, 13, 10, 233],
        [1, 2, 3, 4, 5, 6]] .ok true = .aborted 500 [233] ∧
    runMultipart [88] 0 0
      [[45, 45, 88, 13, 10, 65, 58, 66, 13, 10, 13, 10, 233]]
      .ok true = .aborted 500 [] :=
  ⟨(c8_write_accounting [] 2 0 [1, 2, 3] [] [] ⟨0, [], []⟩ ⟨0, [], []⟩ [] [] []
      [] [] ⟨0, true⟩ [] .ok true).2.2.1 (by rfl) (by rfl),
   (c8_write_accounting [] 2 0 [1, 2, 3] [] [] ⟨0, [], []⟩ ⟨0, [], []⟩ [] [] []
      [] [] ⟨0, true⟩ [] .ok true).2.1 (by decide),
   (c8_write_accounting [] 9 0 [1, 2] [] [] ⟨0, [], []⟩ ⟨0, [], []⟩ [1, 2] [] []
      [] [] ⟨0, true⟩ [] .ok true).1 (by rfl) (by rfl),
   (c8_write_accounting [] 2 0 [1, 2, 3] [] [] ⟨0, [], []⟩ ⟨0, [], []⟩ [] [] []
      [] [] ⟨0, true⟩ [[], [1, 2, 3]] .ok true).2.2.2.2.1 (by rfl),
   ((c8_write_accounting [] 10 0 [] [6, 7] [] ⟨0, [5], []⟩ ⟨0, [], []⟩ []
      [5, 6, 7] [] [] [] ⟨0, true⟩ [] .ok true).2.2.2.2.2.1 (by rfl)).1,
   (c8_write_accounting [88] 10 0 [1, 2, 3, 4, 5, 6] [] [] ⟨0, [], []⟩
      ⟨0, [], []⟩ [] [1, 2, 3, 4, 5, 6] [] [1, 2, 3, 4, 5, 6] [] ⟨6, false⟩ []
      .ok true).2.2.2.2.2.2.1 (by rfl) (by rfl) (by rfl) (by decide) (by rfl),
   (c8_write_accounting [88] 3 0 [1, 2, 3, 4, 5, 6] [] [] ⟨0, [], []⟩
      ⟨0, [], []⟩ [] [] [] [1, 2, 3, 4, 5, 6] [] ⟨6, false⟩ []
      .ok true).2.2.2.2.2.2.2.1 (by rfl) (by rfl) (by rfl) (by decide) (by rfl),
   (c8_write_accounting [88] 2 0 [] [] [] ⟨0, [], []⟩
      ⟨1, [233], [45, 45, 88, 13, 10, 65, 58, 66, 13, 10, 13, 10, 233]⟩ [] []
      [233] [] [233] ⟨0, true⟩
      [[45, 45, 88, 13, 10, 65, 58, 66, 13, 10, 13, 10, 233],
        [1, 2, 3, 4, 5, 6]] .ok true).2.2.2.2.2.2.2.2.2.1
      (by rfl) (by rfl) (by rfl),
   (c8_write_accounting [88] 0 0 [] [] [] ⟨0, [], []⟩ ⟨0, [], []⟩ [] [] []
      [] [233] ⟨0, true⟩
      [[45, 45, 88, 13, 10, 65, 58, 66, 13, 10, 13, 10, 233]]
      .ok true).2.2.2.2.2.2.2.2.2.2 (by rfl) (by decide) (by rfl)⟩

/-- **C9 (counterexample).** The claim says every id outside the configured
relay count is rejected with `400` before any relay lookup.  The firmware
configures five relays, but the handlers validate ids against the hardcoded
range 1..6 (http_server.c lines 194 and 233): id 6 passes validation, the
lookup is performed, and the response is `503`, not `400`. -/
theorem c9_id_six_passes_validation :
    relayIdValid 6 = true ∧ ¬ ((6 : Int) ≤ (configuredRelayCount : Int)) ∧
    relayGetHandler 6 (fun _ => false) = .unavailable :=
  ⟨by decide, by decide, by rfl⟩

/-- **C9 (amended).** The relay endpoints validate the 1-based id against
the hardcoded range 1..6 rather than the configured relay count (5): every
id in 1..6 passes validation, every id outside 1..6 is rejected with `400`
before any lookup, and id 6 — within the accepted range but beyond the five
configured relays — reaches the lookup and yields `503`. -/
theorem c9_validated_against_hardcoded_range (id : Int) (st : Int → Bool) :
    (relayIdValid id = true ↔ 1 ≤ id ∧ id ≤ 6) ∧
    (relayIdValid id = false → relayGetHandler id st = .badId) ∧
    relayGetHandler 6 st = .unavailable := by
  refine ⟨?_, ?_, rfl⟩
  · unfold relayIdValid
    rw [decide_eq_true_iff]
    omega
  · intro h
    unfold relayGetHandler
    rw [h, if_pos rfl]

/-- Witness for `c9_validated_against_hardcoded_range`. -/
theorem c9_validated_against_hardcoded_range_witness :
    relayGetHandler 0 (fun _ => true) = .badId :=
  (c9_validated_against_hardcoded_range 0 (fun _ => true)).2.1 (by rfl)

/-- **C10.** A POST to a valid, initialized relay whose non-empty body
contains none of the four recognizable state tokens
(`"state":true`, `'state':true`, `"state":false`, `'state':false`) toggles
the relay to the negation of its current state and reports success. -/
theorem c10_unrecognized_body_toggles (id : Int) (body : List Nat)
    (current : Bool)
    (hid : relayIdValid id = true) (hui : getRelayUi id = some ())
    (hne : body ≠ [])
    (h1 : ¬ tokDQTrue <:+: body) (h2 : ¬ tokSQTrue <:+: body)
    (h3 : ¬ tokDQFalse <:+: body) (h4 : ¬ tokSQFalse <:+: body) :
    relayPostHandler id body current = .okSet (!current) := by
  unfold relayPostHandler
  rw [hid, if_neg (by simp), hui,
    if_neg (fun h => hne (List.length_eq_zero.mp h))]
  unfold relayPostNewState
  rw [hasTok_eq_false_of_absent body _ h1, hasTok_eq_false_of_absent body _ h2,
    hasTok_eq_false_of_absent body _ h3, hasTok_eq_false_of_absent body _ h4]
  simp

/-- Witness for `c10_unrecognized_body_toggles`: the two-byte body `{}`. -/
theorem c10_unrecognized_body_toggles_witness :
    relayPostHandler 2 [123, 125] false = .okSet true :=
  c10_unrecognized_body_toggles 2 [123, 125] false (by rfl) (by rfl) (by decide)
    (fun h => absurd (findSub_complete _ _ h) (by decide))
    (fun h => absurd (findSub_complete _ _ h) (by decide))
    (fun h => absurd (findSub_complete _ _ h) (by decide))
    (fun h => absurd (findSub_complete _ _ h) (by decide))

end SmartSocket
